import Mathlib

/-!
Verification of the gtimer hierarchical timing-wheel scheduler
(package `gtimer` of ilylx/gconv), shallowly embedded in Lean 4.

The embedding follows the Go source: the package-level API and the
wheel dispatch loop (`wheel.start`, `wheel.proceed`, the per-invocation
job wrapper, the `Exit` panic signal) and the configuration lookup
(`internal/cmdenv.Get`).  Components whose source file is absent from
the snapshot (the Entry state machine's `check`, `Close`, and the
Timer's `doAddEntry` family) are modelled from the specification and
carry a doc comment saying so.
-/

namespace GTimer

/-- Status constants, from the `gtimer` package constants. -/
def StatusReady : Int := 0

/-- Job is already running. -/
def StatusRunning : Int := 1

/-- Job is stopped. -/
def StatusStopped : Int := 2

/-- Job is reset. -/
def StatusReset : Int := 3

/-- Job is closed and waiting to be deleted. -/
def StatusClosed : Int := -1

/-- Default limit of running times (`math.MaxInt32` in the source). -/
def gDefaultTimes : Int := 2147483647

/-- Default slot number. -/
def gDefaultSlotNumber : Int := 10

/-- Default wheel interval in milliseconds. -/
def gDefaultWheelInterval : Int := 50

/-- Default wheel level. -/
def gDefaultWheelLevel : Int := 6

/-- Configuration key for command argument or environment. -/
def gCmdenvKey : String := "gf.gtimer"

/-- The observable outcome of invoking a job body once.  A job either
returns normally, raises the cancellation signal (`Exit()` panics with
the sentinel `"exit"` string), or terminates abruptly with some other
panic value (coded as an `Int`). -/
inductive JobResult where
  | normal
  | panicExit
  | panicOther (v : Int)
deriving DecidableEq, Repr

/-- A scheduled job entry.  The fields mirror the Entry struct of the
source: `job` is abstracted to its invocation outcome, `status` is the
atomic status word, `times` the remaining permitted runs,
`singleton` the overlap flag, `rawIntervalMs` the nominal interval,
`createTicks` and `intervalTicks` the wheel-tick placement data. -/
structure Entry where
  job : JobResult
  status : Int
  times : Int
  singleton : Bool
  rawIntervalMs : Int
  createTicks : Int
  intervalTicks : Int
deriving DecidableEq, Repr

/-- Modelled from the spec: `Entry.Close()` is in the entry source file
absent from the snapshot; the spec says `any → Closed`: explicit
`Close()` marks the entry closed. -/
def Entry.close (e : Entry) : Entry :=
  { e with status := StatusClosed }

/-- The per-invocation wrapper around a job, from `wheel.proceed`:
the launched goroutine defers a recovery handler, then calls
`entry.job()`.  On recovery of the sentinel exit panic it calls
`entry.Close()`; any other panic is re-raised (so the trailing
status check does not run); otherwise, if the status is still
`StatusRunning` it is set back to `StatusReady`.  Returns the updated
entry together with the propagated panic value, if any. -/
def jobWrapper (e : Entry) : Entry × Option Int :=
  match e.job with
  | .normal =>
      (if e.status = StatusRunning then { e with status := StatusReady } else e,
       none)
  | .panicExit =>
      let e1 := e.close
      (if e1.status = StatusRunning then { e1 with status := StatusReady } else e1,
       none)
  | .panicOther v =>
      (e, some v)

/-- Running every launched entry's job wrapper: each launched job runs
in its own goroutine and touches only its own entry. -/
def runLaunched (l : List Entry) : List (Entry × Option Int) :=
  l.map jobWrapper

/-- Modelled from the spec: `entry.check` lives in the entry source
file absent from the snapshot.  Per the spec's state machine:
`Stopped` entries stay installed but never fire; `Closed` entries are
dropped; `Reset` is a transient marker resolved when next considered;
a `Ready` entry fires when its tick span has elapsed, unless the
singleton rule suppresses an overlapping run; the run counter is
decremented once per actual firing and exhaustion forces `Closed`.
Returns `(runnable, addable, updated entry)`. -/
def Entry.check (e : Entry) (nowTicks : Int) : Bool × Bool × Entry :=
  if e.status = StatusStopped then (false, true, e)
  else if e.status = StatusClosed then (false, false, e)
  else if e.status = StatusReset then (false, true, e)
  else
    let diff := nowTicks - e.createTicks
    if diff > 0 ∧ diff % e.intervalTicks = 0 then
      if e.singleton ∧ e.status = StatusRunning then (false, true, e)
      else if e.times - 1 < 0 then
        (false, false, { e with status := StatusClosed })
      else
        (true, true, { e with status := StatusRunning, times := e.times - 1 })
    else (false, true, e)

/-- From `wheel.proceed`: before re-adding an addable entry, a
transient `StatusReset` is resolved back to `StatusReady`. -/
def fixReset (e : Entry) : Entry :=
  if e.status = StatusReset then { e with status := StatusReady } else e

/-- One wheel level: its tick counter, slot count (`number` in the
source) and the slots, each a FIFO list with the front at the head. -/
structure Wheel where
  ticks : Int
  number : Int
  slots : List (List Entry)
deriving DecidableEq, Repr

/-- The slot `wheel.proceed` drains on its next firing:
`w.slots[(ticks+1) % number]`, since the tick counter is advanced
first. -/
def currentSlot (w : Wheel) : List Entry :=
  w.slots.getD ((w.ticks + 1) % w.number).toNat []

/-- The drain-goroutine body of `wheel.proceed`, applied to the list of
drained entries: each entry is checked; runnable entries are collected
for launch (their job goroutines), addable entries are collected for
re-installation after the `StatusReset` fix.  Returns
`(launched, readded)`. -/
def processDrained (nowTicks : Int) : List Entry → List Entry × List Entry
  | [] => ([], [])
  | e :: rest =>
      let c := e.check nowTicks
      let r := processDrained nowTicks rest
      ((if c.1 then c.2.2 :: r.1 else r.1),
       (if c.2.1 then fixReset c.2.2 :: r.2 else r.2))

/-- The result of one `wheel.proceed` firing: the advanced tick
counter, the index of the drained slot, the entries whose jobs were
launched as independent goroutines, and the entries handed back to
`timer.doAddEntryByParent` for re-installation. -/
structure ProceedResult where
  ticks : Int
  slotIndex : Int
  launched : List Entry
  readds : List Entry
deriving DecidableEq, Repr

/-- Function `wheel.proceed`: advance the tick counter by one, select
slot `n % number`, snapshot its length and drain it, deciding for each
drained entry whether to launch and whether to re-add. -/
def Wheel.proceed (w : Wheel) : ProceedResult :=
  let n := w.ticks + 1
  let idx := n % w.number
  let slot := w.slots.getD idx.toNat []
  let pr := processDrained n slot
  { ticks := n, slotIndex := idx, launched := pr.1, readds := pr.2 }

/-- The wheel state as the dispatch loop leaves it after one
`proceed` firing: the tick counter advanced, the drained slot left
empty (launches and re-installations happen outside the wheel's own
state). -/
def wheelAfterProceed (w : Wheel) : Wheel :=
  { w with ticks := w.ticks + 1,
           slots := w.slots.set ((w.ticks + 1) % w.number).toNat [] }

/-- One ticker firing of `wheel.start`'s loop: switch on the owning
timer's status.  `StatusRunning` runs `proceed`; `StatusStopped` does
nothing; `StatusClosed` stops the ticker and returns (second component
`true`); any other value matches no case and does nothing. -/
def tickFire (status : Int) (w : Wheel) : Wheel × Bool :=
  if status = StatusRunning then (wheelAfterProceed w, false)
  else if status = StatusStopped then (w, false)
  else if status = StatusClosed then (w, true)
  else (w, false)

/-- The dispatch loop of `wheel.start`, driven by the sequence of
timer-status values observed at successive ticker firings; the loop
terminates when a firing observes `StatusClosed`. -/
def runLoop : List Int → Wheel → Wheel
  | [], w => w
  | s :: rest, w =>
      let r := tickFire s w
      if r.2 then r.1 else runLoop rest r.1

/-!
Operational model of a Slot under concurrency.  A Slot is a
concurrency-safe FIFO (`glist.List`): producers `PushBack` at the
back, the drain loop of `wheel.proceed` snapshots `Len()` and then
performs exactly that many `PopFront`s, breaking if a pop returns nil.
An execution is a sequence of front-pops (the drain loop's) and
back-pushes (concurrent re-installations from other levels),
interleaved arbitrarily.
-/

/-- One primitive slot operation during a drain: a concurrent
`PushBack` of an entry, or one `PopFront` of the drain loop. -/
inductive SlotOp where
  | push (e : Entry)
  | pop
deriving DecidableEq, Repr

/-- The entries pushed during an operation sequence, in push order. -/
def pushesOf : List SlotOp → List Entry
  | [] => []
  | .push e :: r => e :: pushesOf r
  | .pop :: r => pushesOf r

/-- The number of `PopFront`s in an operation sequence. -/
def countPops : List SlotOp → Nat
  | [] => 0
  | .push _ :: r => countPops r
  | .pop :: r => countPops r + 1

/-- Run an interleaved operation sequence against a slot whose current
content is the given list (front at the head).  Returns the popped
entries in pop order and the slot's final content.  A `PopFront` on an
empty slot returns nil, which breaks the drain loop: no further pops
happen, but later concurrent pushes still land in the slot. -/
def runOps : List SlotOp → List Entry → List Entry × List Entry
  | [], s => ([], s)
  | .push e :: rest, s => runOps rest (s ++ [e])
  | .pop :: rest, [] => ([], pushesOf rest)
  | .pop :: rest, h :: t =>
      let r := runOps rest t
      (h :: r.1, r.2)

/-!
Configuration lookup: `internal/cmdenv.Get` and the package-level
default timer construction.
-/

/-- A value as held by `gvar.Var`: either the typed default passed to
`cmdenv.Get`, or a raw string taken from a command-line option or an
environment variable. -/
inductive GVal where
  | ofInt (n : Int)
  | ofStr (s : String)
deriving DecidableEq, Repr

/-- Modelled from the spec: the `gconv` integer conversion consumed by
`gvar.Var.Int()` is not in the snapshot; on an all-digit decimal
string it parses the number, and an `Int` default passes through
unchanged. -/
def gvarInt : GVal → Int
  | .ofInt n => n
  | .ofStr s =>
      if s.toList ≠ [] ∧ s.toList.all Char.isDigit then
        Int.ofNat (s.toList.foldl (fun a c => a * 10 + (c.toNat - 48)) 0)
      else 0

/-- Replacement of every occurrence of the single character `p` by
`r`, as `strings.Replace(s, p, r, -1)` does for one-character
patterns. -/
def goReplaceAll (p r : Char) (s : String) : String :=
  String.mk (s.toList.map (fun c => if c = p then r else c))

/-- Lowercasing, as `strings.ToLower` does on ASCII keys. -/
def goToLower (s : String) : String :=
  String.mk (s.toList.map Char.toLower)

/-- Uppercasing, as `strings.ToUpper` does on ASCII keys. -/
def goToUpper (s : String) : String :=
  String.mk (s.toList.map Char.toUpper)

/-- Function `cmdenv.Get`: start from the default; the command-line option
under the lowercased dot-form of the key wins if present; otherwise a
non-empty environment variable under the uppercased underscore-form of
the key wins; otherwise the default stands.  `cmdOptions` is the
parsed command-line option table and `getenv` the environment (empty
string means unset, as in Go's `os.Getenv`). -/
def cmdenvGet (cmdOptions : List (String × String)) (getenv : String → String)
    (key : String) (dflt : GVal) : GVal :=
  let cmdKey := goToLower (goReplaceAll '_' '.' key)
  match cmdOptions.lookup cmdKey with
  | some v => .ofStr v
  | none =>
      let envKey := goToUpper (goReplaceAll '.' '_' key)
      if getenv envKey ≠ "" then .ofStr (getenv envKey) else dflt

/-- The slot count the default timer is constructed with:
`cmdenv.Get("gf.gtimer.slots", gDefaultSlotNumber).Int()`. -/
def defaultSlots (cmd : List (String × String)) (env : String → String) : Int :=
  gvarInt (cmdenvGet cmd env (gCmdenvKey ++ ".slots") (.ofInt gDefaultSlotNumber))

/-- The level count the default timer is constructed with:
`cmdenv.Get("gf.gtimer.level", gDefaultWheelLevel).Int()`. -/
def defaultLevel (cmd : List (String × String)) (env : String → String) : Int :=
  gvarInt (cmdenvGet cmd env (gCmdenvKey ++ ".level") (.ofInt gDefaultWheelLevel))

/-- The base interval (in milliseconds) the default timer is
constructed with:
`cmdenv.Get("gf.gtimer.interval", gDefaultWheelInterval).Duration() * time.Millisecond`,
expressed here as the millisecond count. -/
def defaultIntervalMs (cmd : List (String × String)) (env : String → String) : Int :=
  gvarInt (cmdenvGet cmd env (gCmdenvKey ++ ".interval") (.ofInt gDefaultWheelInterval))

/-- The argument triple `(slots, interval, level)` passed to
`New(defaultSlots, defaultInterval, defaultLevel)` when the package's
default timer is constructed at initialization. -/
def defaultTimerArgs (cmd : List (String × String)) (env : String → String) :
    Int × Int × Int :=
  (defaultSlots cmd env, defaultIntervalMs cmd env, defaultLevel cmd env)

/-!
Timer facade and the package-level registration API.
-/

/-- The parameters an entry is registered with through the Timer's
`doAddEntry` family. -/
structure EntrySpec where
  intervalMs : Int
  job : JobResult
  singleton : Bool
  times : Int
  status : Int
deriving DecidableEq, Repr

/-- A Timer, observed through the sequence of entries registered on
it. -/
structure Timer where
  entries : List EntrySpec
deriving DecidableEq, Repr

/-- Modelled from the spec: the Timer's internal `doAddEntry` (its
source file is absent from the snapshot) creates an Entry from the
given parameters and installs it; the returned handle is the created
entry. -/
def Timer.doAddEntry (t : Timer) (interval : Int) (job : JobResult)
    (singleton : Bool) (times : Int) (status : Int) : Timer × EntrySpec :=
  let e : EntrySpec :=
    { intervalMs := interval, job := job, singleton := singleton,
      times := times, status := status }
  ({ entries := t.entries ++ [e] }, e)

/-- Modelled from the spec: `Timer.Add(interval, job)` registers a
repeating job, unlimited runs (the documented default limit),
non-singleton, initially ready. -/
def Timer.add (t : Timer) (interval : Int) (job : JobResult) : Timer × EntrySpec :=
  t.doAddEntry interval job false gDefaultTimes StatusReady

/-- Modelled from the spec: `Timer.AddOnce(interval, job)` registers a
job that fires exactly once, initially ready. -/
def Timer.addOnce (t : Timer) (interval : Int) (job : JobResult) : Timer × EntrySpec :=
  t.doAddEntry interval job false 1 StatusReady

/-- Package-level `Add`: delegates to the default timer's `Add`.  The
default timer's state is passed explicitly. -/
def pkgAdd (dt : Timer) (interval : Int) (job : JobResult) : Timer × EntrySpec :=
  dt.add interval job

/-- Package-level `AddOnce`: delegates to the default timer's
`AddOnce`. -/
def pkgAddOnce (dt : Timer) (interval : Int) (job : JobResult) : Timer × EntrySpec :=
  dt.addOnce interval job

/-- Package-level `SetTimeout(delay, job)`: runs the job once after
`delay`; its body is exactly `AddOnce(delay, job)`, discarding the
returned handle. -/
def pkgSetTimeout (dt : Timer) (delay : Int) (job : JobResult) : Timer :=
  (pkgAddOnce dt delay job).1

/-- Package-level `SetInterval(interval, job)`: runs the job every
`interval`; its body is exactly `Add(interval, job)`, discarding the
returned handle. -/
def pkgSetInterval (dt : Timer) (interval : Int) (job : JobResult) : Timer :=
  (pkgAdd dt interval job).1

/-!
Job substitution, used to state that tick processing never evaluates a
job body inline.
-/

/-- Replace an entry's job body. -/
def entryMapJob (f : JobResult → JobResult) (e : Entry) : Entry :=
  { e with job := f e.job }

/-- Replace every job body in every slot of a wheel. -/
def wheelMapJobs (f : JobResult → JobResult) (w : Wheel) : Wheel :=
  { w with slots := w.slots.map (fun s => s.map (entryMapJob f)) }

/-- A concrete entry used to evaluate the model on closed inputs. -/
def sampleEntry (st : Int) (jr : JobResult) (tm : Int) : Entry :=
  { job := jr, status := st, times := tm, singleton := false,
    rawIntervalMs := 100, createTicks := 0, intervalTicks := 1 }

/-- A concrete two-slot wheel used to evaluate the model on closed
inputs. -/
def sampleWheel : Wheel :=
  { ticks := 0, number := 2,
    slots := [[], [sampleEntry StatusReady .normal 3,
                   sampleEntry StatusStopped .normal 2]] }

/-- A concrete command-line option table used to evaluate the
configuration model on closed inputs. -/
def sampleCmd : List (String × String) :=
  [("gf.gtimer.slots", "12")]

/-- A concrete environment used to evaluate the configuration model on
closed inputs. -/
def sampleEnv (k : String) : String :=
  if k = "GF_GTIMER_LEVEL" then "8" else ""

/-!
Helper lemmas.
-/

theorem check_entryMapJob (f : JobResult → JobResult) (e : Entry) (n : Int) :
    (entryMapJob f e).check n =
      ((e.check n).1, (e.check n).2.1, entryMapJob f (e.check n).2.2) := by
  cases e
  simp only [Entry.check, entryMapJob]
  split_ifs <;> rfl

theorem fixReset_entryMapJob (f : JobResult → JobResult) (e : Entry) :
    fixReset (entryMapJob f e) = entryMapJob f (fixReset e) := by
  cases e
  simp only [fixReset, entryMapJob]
  split_ifs <;> rfl

theorem processDrained_mapJobs (f : JobResult → JobResult) (n : Int)
    (l : List Entry) :
    processDrained n (l.map (entryMapJob f)) =
      ((processDrained n l).1.map (entryMapJob f),
       (processDrained n l).2.map (entryMapJob f)) := by
  induction l with
  | nil => rfl
  | cons e rest ih =>
    simp only [List.map_cons, processDrained, check_entryMapJob, ih,
      fixReset_entryMapJob]
    cases (e.check n).1 <;> cases (e.check n).2.1 <;> simp

theorem getD_map_map (f : JobResult → JobResult) (l : List (List Entry))
    (i : Nat) :
    (l.map (fun s => s.map (entryMapJob f))).getD i [] =
      (l.getD i []).map (entryMapJob f) := by
  induction l generalizing i with
  | nil => simp
  | cons s rest ih =>
    cases i with
    | zero => simp
    | succ j => simpa using ih j

theorem proceed_mapJobs (f : JobResult → JobResult) (w : Wheel) :
    (wheelMapJobs f w).proceed =
      { ticks := w.proceed.ticks, slotIndex := w.proceed.slotIndex,
        launched := w.proceed.launched.map (entryMapJob f),
        readds := w.proceed.readds.map (entryMapJob f) } := by
  cases w
  simp only [Wheel.proceed, wheelMapJobs]
  rw [getD_map_map, processDrained_mapJobs]

theorem runOps_snapshot (ops : List SlotOp) :
    ∀ (s q : List Entry), countPops ops = s.length →
      runOps ops (s ++ q) = (s, q ++ pushesOf ops) := by
  induction ops with
  | nil =>
    intro s q h
    have hs : s = [] := List.eq_nil_of_length_eq_zero h.symm
    subst hs
    simp [runOps, pushesOf]
  | cons op rest ih =>
    cases op with
    | push e =>
      intro s q h
      have h1 : countPops rest = s.length := h
      have := ih s (q ++ [e]) h1
      simp only [runOps, List.append_assoc] at this ⊢
      rw [this]
      simp [pushesOf]
    | pop =>
      intro s q h
      cases s with
      | nil => simp [countPops] at h
      | cons hd tl =>
        have h1 : countPops rest = tl.length := by
          simpa [countPops] using h
        have := ih tl q h1
        simp only [List.cons_append, runOps, pushesOf, List.append_eq, this]

theorem tickFire_not_closed (s : Int) (w : Wheel) (hs : s ≠ StatusClosed) :
    (tickFire s w).2 = false := by
  unfold tickFire
  by_cases h1 : s = StatusRunning
  · simp [h1]
  · by_cases h2 : s = StatusStopped
    · simp [h1, h2, StatusStopped, StatusRunning]
    · simp [h1, h2, hs]

theorem runLoop_stops_at_closed (pre post : List Int) :
    ∀ w : Wheel, StatusClosed ∉ pre →
      runLoop (pre ++ StatusClosed :: post) w = runLoop pre w := by
  induction pre with
  | nil =>
    intro w _
    simp [runLoop, tickFire, StatusClosed, StatusRunning, StatusStopped]
  | cons s rest ih =>
    intro w h
    have hs : s ≠ StatusClosed := by
      intro he; exact h (by simp [he])
    have hrest : StatusClosed ∉ rest := fun he => h (List.mem_cons_of_mem _ he)
    simp only [List.cons_append, runLoop, tickFire_not_closed s w hs,
      Bool.false_eq_true, if_false]
    exact ih _ hrest

/-!
Claim theorems.
-/

/-- C1: on a tick, the drain loop of `wheel.proceed` snapshots the
current slot's length and pops exactly that many entries from the
front.  Under any interleaving of concurrent back-pushes during the
drain, the popped (processed) entries are exactly the entries present
in the slot at the moment of the tick, in FIFO insertion order, each
exactly once; the slot is left holding exactly the concurrently
pushed entries, so none of them is processed in that tick. -/
theorem drain_processes_snapshot_exactly (w : Wheel) (ops : List SlotOp)
    (h : countPops ops = (currentSlot w).length) :
    runOps ops (currentSlot w) = (currentSlot w, pushesOf ops) := by
  have h0 := runOps_snapshot ops (currentSlot w) [] h
  simpa using h0

/-- Witness for C1: a two-entry slot drained with two pops while one
concurrent push lands mid-drain. -/
theorem drain_processes_snapshot_exactly_witness :
    countPops [SlotOp.pop, SlotOp.push (sampleEntry StatusReady .normal 1),
        SlotOp.pop] = (currentSlot sampleWheel).length ∧
    runOps [SlotOp.pop, SlotOp.push (sampleEntry StatusReady .normal 1),
        SlotOp.pop] (currentSlot sampleWheel) =
      (currentSlot sampleWheel,
       pushesOf [SlotOp.pop, SlotOp.push (sampleEntry StatusReady .normal 1),
         SlotOp.pop]) :=
  ⟨by decide, drain_processes_snapshot_exactly sampleWheel _ (by decide)⟩

/-- C2: each `wheel.proceed` firing advances the tick counter by
exactly one, and the slot selected for draining is the one at index
`tickCounter mod slotCount` computed from the advanced counter. -/
theorem proceed_advances_tick_selects_slot (w : Wheel) :
    w.proceed.ticks = w.ticks + 1 ∧
    w.proceed.slotIndex = (w.ticks + 1) % w.number ∧
    w.proceed.slotIndex = w.proceed.ticks % w.number :=
  ⟨rfl, rfl, rfl⟩

/-- Counterexample to C3: a job that completes normally with
`remainingRuns = 0` while `Running` is transitioned by the wrapper to
`Ready`, not to `Closed` as the claim states. -/
theorem normal_completion_exhausted_not_closed :
    (sampleEntry StatusRunning .normal 0).job = JobResult.normal ∧
    (sampleEntry StatusRunning .normal 0).status = StatusRunning ∧
    (sampleEntry StatusRunning .normal 0).times = 0 ∧
    (jobWrapper (sampleEntry StatusRunning .normal 0)).1.status = StatusReady ∧
    (jobWrapper (sampleEntry StatusRunning .normal 0)).1.status ≠ StatusClosed := by
  decide

/-- C3 (amended): on normal job completion, if the entry's status is
still `Running` the wrapper transitions it to `Ready` regardless of
`remainingRuns`, and nothing is propagated; the `Closed` transition on
an exhausted run counter happens at the entry's next check, not at job
completion. -/
theorem normal_completion_sets_ready (e : Entry) (h1 : e.job = .normal)
    (h2 : e.status = StatusRunning) :
    (jobWrapper e).1.status = StatusReady ∧ (jobWrapper e).2 = none := by
  unfold jobWrapper
  rw [h1]
  simp [h2]

/-- Witness for the amended C3. -/
theorem normal_completion_sets_ready_witness :
    (sampleEntry StatusRunning .normal 5).job = JobResult.normal ∧
    (sampleEntry StatusRunning .normal 5).status = StatusRunning ∧
    ((jobWrapper (sampleEntry StatusRunning .normal 5)).1.status = StatusReady ∧
     (jobWrapper (sampleEntry StatusRunning .normal 5)).2 = none) :=
  ⟨rfl, rfl, normal_completion_sets_ready _ rfl rfl⟩

/-- C4: a job invocation that raises the cancellation signal is caught
by the wrapper, the entry transitions to `Closed`, and the signal is
never propagated to the caller. -/
theorem exit_signal_caught_and_closed (e : Entry) (h : e.job = .panicExit) :
    (jobWrapper e).1.status = StatusClosed ∧ (jobWrapper e).2 = none := by
  unfold jobWrapper
  rw [h]
  simp [Entry.close, StatusClosed, StatusRunning]

/-- Witness for C4. -/
theorem exit_signal_caught_and_closed_witness :
    (sampleEntry StatusRunning .panicExit 3).job = JobResult.panicExit ∧
    ((jobWrapper (sampleEntry StatusRunning .panicExit 3)).1.status = StatusClosed ∧
     (jobWrapper (sampleEntry StatusRunning .panicExit 3)).2 = none) :=
  ⟨rfl, exit_signal_caught_and_closed _ rfl⟩

/-- C5: a job terminating abruptly with anything other than the
cancellation signal has the failure re-raised as-is by the wrapper
(not suppressed); the failing entry's record is not otherwise
modified, other launched entries are processed independently, and the
wheel's tick processing is unchanged even if every job body fails that
way. -/
theorem job_failure_propagated (e : Entry) (v : Int) (rest : List Entry)
    (w : Wheel) (h : e.job = .panicOther v) :
    jobWrapper e = (e, some v) ∧
    runLaunched (e :: rest) = (e, some v) :: runLaunched rest ∧
    ((wheelMapJobs (fun _ => JobResult.panicOther v) w).proceed).ticks =
      w.proceed.ticks ∧
    ((wheelMapJobs (fun _ => JobResult.panicOther v) w).proceed).slotIndex =
      w.proceed.slotIndex := by
  have h1 : jobWrapper e = (e, some v) := by
    unfold jobWrapper
    rw [h]
  refine ⟨h1, ?_, ?_, ?_⟩
  · simp [runLaunched, h1]
  · rw [proceed_mapJobs]
  · rw [proceed_mapJobs]

/-- Witness for C5. -/
theorem job_failure_propagated_witness :
    (sampleEntry StatusRunning (.panicOther 7) 1).job = JobResult.panicOther 7 ∧
    (jobWrapper (sampleEntry StatusRunning (.panicOther 7) 1) =
       (sampleEntry StatusRunning (.panicOther 7) 1, some 7) ∧
     runLaunched [sampleEntry StatusRunning (.panicOther 7) 1] =
       (sampleEntry StatusRunning (.panicOther 7) 1, some 7) :: runLaunched [] ∧
     ((wheelMapJobs (fun _ => JobResult.panicOther 7) sampleWheel).proceed).ticks =
       sampleWheel.proceed.ticks ∧
     ((wheelMapJobs (fun _ => JobResult.panicOther 7) sampleWheel).proceed).slotIndex =
       sampleWheel.proceed.slotIndex) :=
  ⟨rfl, job_failure_propagated _ 7 [] sampleWheel rfl⟩

/-- C6: a ticker firing that observes `StatusStopped` processes no
tick: the wheel is left untouched (no counter advance, no drain) and
the loop continues; once a firing observes `StatusClosed` the loop
stops its ticker and terminates, so the firings after it are never
processed. -/
theorem stopped_skips_closed_terminates (w : Wheel) (pre post : List Int)
    (h : StatusClosed ∉ pre) :
    tickFire StatusStopped w = (w, false) ∧
    runLoop (pre ++ StatusClosed :: post) w = runLoop pre w := by
  constructor
  · simp [tickFire, StatusStopped, StatusRunning, StatusClosed]
  · exact runLoop_stops_at_closed pre post w h

/-- Witness for C6. -/
theorem stopped_skips_closed_terminates_witness :
    StatusClosed ∉ [StatusRunning, StatusStopped] ∧
    (tickFire StatusStopped sampleWheel = (sampleWheel, false) ∧
     runLoop ([StatusRunning, StatusStopped] ++ StatusClosed :: [StatusRunning])
         sampleWheel =
       runLoop [StatusRunning, StatusStopped] sampleWheel) :=
  ⟨by decide,
   stopped_skips_closed_terminates sampleWheel [StatusRunning, StatusStopped]
     [StatusRunning] (by decide)⟩

/-- C7: tick processing never runs a job body inline: replacing every
job body (for instance by an arbitrarily slow or blocked one) changes
neither the advanced tick counter nor the selected slot of
`wheel.proceed`; runnable entries are handed over for concurrent
launch with their job bodies unevaluated. -/
theorem tick_never_blocked_by_jobs (f : JobResult → JobResult) (w : Wheel) :
    ((wheelMapJobs f w).proceed).ticks = w.proceed.ticks ∧
    ((wheelMapJobs f w).proceed).slotIndex = w.proceed.slotIndex ∧
    ((wheelMapJobs f w).proceed).launched =
      w.proceed.launched.map (entryMapJob f) := by
  rw [proceed_mapJobs]
  exact ⟨rfl, rfl, rfl⟩

/-- C8: a drained entry carrying the transient `StatusReset` is
addable but not runnable, and before `wheel.proceed` re-adds it the
status is set to `StatusReady`, so it re-enters the timer resolved to
ready. -/
theorem reset_resolved_to_ready (nowTicks : Int) (e : Entry)
    (rest : List Entry) (h : e.status = StatusReset) :
    (e.check nowTicks).1 = false ∧
    (e.check nowTicks).2.1 = true ∧
    (processDrained nowTicks (e :: rest)).2 =
      { e with status := StatusReady } :: (processDrained nowTicks rest).2 := by
  have hc : e.check nowTicks = (false, true, e) := by
    unfold Entry.check
    rw [h]
    norm_num [StatusReset, StatusStopped, StatusClosed]
  refine ⟨by rw [hc], by rw [hc], ?_⟩
  simp [processDrained, hc, fixReset, h]

/-- Witness for C8. -/
theorem reset_resolved_to_ready_witness :
    (sampleEntry StatusReset .normal 1).status = StatusReset ∧
    (((sampleEntry StatusReset .normal 1).check 0).1 = false ∧
     ((sampleEntry StatusReset .normal 1).check 0).2.1 = true ∧
     (processDrained 0 [sampleEntry StatusReset .normal 1]).2 =
       { sampleEntry StatusReset .normal 1 with status := StatusReady } ::
         (processDrained 0 []).2) :=
  ⟨rfl, reset_resolved_to_ready 0 _ [] rfl⟩

/-- C9: the default timer is constructed with slot count 10, level
count 6 and base interval 50 ms, unless overridden through the
configuration lookup under `gf.gtimer.slots` / `gf.gtimer.level` /
`gf.gtimer.interval`, where a command-line option takes precedence
over an environment variable, which takes precedence over the
documented default.  Here the slots key is overridden on the command
line (winning regardless of the environment), the level key only in
the environment, and the interval key not at all. -/
theorem default_timer_configuration (cmd : List (String × String))
    (env : String → String) (s : String)
    (h1 : cmd.lookup "gf.gtimer.slots" = some s)
    (h2 : cmd.lookup "gf.gtimer.level" = none)
    (h3 : env "GF_GTIMER_LEVEL" ≠ "")
    (h4 : cmd.lookup "gf.gtimer.interval" = none)
    (h5 : env "GF_GTIMER_INTERVAL" = "") :
    defaultTimerArgs cmd env =
      (gvarInt (.ofStr s), gDefaultWheelInterval,
       gvarInt (.ofStr (env "GF_GTIMER_LEVEL"))) ∧
    defaultTimerArgs [] (fun _ => "") =
      (gDefaultSlotNumber, gDefaultWheelInterval, gDefaultWheelLevel) := by
  have k1 : goToLower (goReplaceAll '_' '.' (gCmdenvKey ++ ".slots")) =
      "gf.gtimer.slots" := by decide
  have k2 : goToLower (goReplaceAll '_' '.' (gCmdenvKey ++ ".level")) =
      "gf.gtimer.level" := by decide
  have k3 : goToLower (goReplaceAll '_' '.' (gCmdenvKey ++ ".interval")) =
      "gf.gtimer.interval" := by decide
  have k4 : goToUpper (goReplaceAll '.' '_' (gCmdenvKey ++ ".level")) =
      "GF_GTIMER_LEVEL" := by decide
  have k5 : goToUpper (goReplaceAll '.' '_' (gCmdenvKey ++ ".interval")) =
      "GF_GTIMER_INTERVAL" := by decide
  constructor
  · unfold defaultTimerArgs defaultSlots defaultIntervalMs defaultLevel cmdenvGet
    rw [k1, k2, k3, k4, k5]
    dsimp only
    rw [h1, h2, h4]
    simp [h3, h5, gvarInt, gDefaultWheelInterval]
  · decide

/-- Witness for C9. -/
theorem default_timer_configuration_witness :
    sampleCmd.lookup "gf.gtimer.slots" = some "12" ∧
    sampleCmd.lookup "gf.gtimer.level" = none ∧
    sampleEnv "GF_GTIMER_LEVEL" ≠ "" ∧
    sampleCmd.lookup "gf.gtimer.interval" = none ∧
    sampleEnv "GF_GTIMER_INTERVAL" = "" ∧
    (defaultTimerArgs sampleCmd sampleEnv =
       (gvarInt (.ofStr "12"), gDefaultWheelInterval,
        gvarInt (.ofStr (sampleEnv "GF_GTIMER_LEVEL"))) ∧
     defaultTimerArgs [] (fun _ => "") =
       (gDefaultSlotNumber, gDefaultWheelInterval, gDefaultWheelLevel)) :=
  ⟨by decide, by decide, by decide, by decide, by decide,
   default_timer_configuration sampleCmd sampleEnv "12" (by decide) (by decide)
     (by decide) (by decide) (by decide)⟩

/-- C10: `SetTimeout(delay, job)` has exactly the effect of
`AddOnce(delay, job)` on the default timer, and `SetInterval(interval,
job)` exactly that of `Add(interval, job)`: the javascript-style
aliases add no behaviour of their own beyond discarding the returned
handle. -/
theorem javascript_aliases_add_nothing (dt : Timer) (d i : Int)
    (j k : JobResult) :
    pkgSetTimeout dt d j = (pkgAddOnce dt d j).1 ∧
    pkgSetInterval dt i k = (pkgAdd dt i k).1 ∧
    pkgAddOnce dt d j = dt.addOnce d j ∧
    pkgAdd dt i k = dt.add i k :=
  ⟨rfl, rfl, rfl, rfl⟩

end GTimer

